import Mathlib

/-!
# Stacker: token table, attribute modes, variants, default rules and the font cache

A shallow embedding of `stacker_token.h`, `stacker_attribute.h` and
`stacker_system.cpp`.  C enumerators are integer constants carrying the
source's names; each enumerator without an initialiser is its predecessor
plus one, as in C.
-/

namespace stkr

/-! ## stacker_token.h -/

/-- A token is the `int` value of a `Token` enumerator. -/
abbrev Token := Int

/-! ### enum Token -/

def TOKEN_INVALID : Int := 0
def TOKEN_EOF : Int := TOKEN_INVALID + 1
def TOKEN_TEXT : Int := TOKEN_EOF + 1
def TOKEN_TEXT_BLANK : Int := TOKEN_TEXT + 1
def TOKEN_BREAK : Int := TOKEN_TEXT_BLANK + 1
def TOKEN_OPEN_ANGLE : Int := TOKEN_BREAK + 1
def TOKEN_CLOSE_ANGLE : Int := TOKEN_OPEN_ANGLE + 1
def TOKEN_OPEN_ANGLE_SLASH : Int := TOKEN_CLOSE_ANGLE + 1
def TOKEN_SLASH_CLOSE_ANGLE : Int := TOKEN_OPEN_ANGLE_SLASH + 1
def TOKEN_OPEN_PARENTHESIS : Int := TOKEN_SLASH_CLOSE_ANGLE + 1
def TOKEN_CLOSE_PARENTHESIS : Int := TOKEN_OPEN_PARENTHESIS + 1
def TOKEN_EQUALS : Int := TOKEN_CLOSE_PARENTHESIS + 1
def TOKEN_PLUS_EQUALS : Int := TOKEN_EQUALS + 1
def TOKEN_DASH_EQUALS : Int := TOKEN_PLUS_EQUALS + 1
def TOKEN_STAR_EQUALS : Int := TOKEN_DASH_EQUALS + 1
def TOKEN_SLASH_EQUALS : Int := TOKEN_STAR_EQUALS + 1
def TOKEN_COLON_EQUALS : Int := TOKEN_SLASH_EQUALS + 1
def TOKEN_COMMA : Int := TOKEN_COLON_EQUALS + 1
def TOKEN_BOOLEAN : Int := TOKEN_COMMA + 1
def TOKEN_INTEGER : Int := TOKEN_BOOLEAN + 1
def TOKEN_FLOAT : Int := TOKEN_INTEGER + 1
def TOKEN_PERCENTAGE : Int := TOKEN_FLOAT + 1
def TOKEN_STRING : Int := TOKEN_PERCENTAGE + 1
def TOKEN_COLOR_LITERAL : Int := TOKEN_STRING + 1
def TOKEN_URL_LITERAL : Int := TOKEN_COLOR_LITERAL + 1
def TOKEN_KEYWORD_FIRST : Int := TOKEN_URL_LITERAL + 1
def TOKEN_TAG_FIRST : Int := TOKEN_KEYWORD_FIRST
def TOKEN_DOCUMENT : Int := TOKEN_TAG_FIRST
def TOKEN_HBOX : Int := TOKEN_DOCUMENT + 1
def TOKEN_VBOX : Int := TOKEN_HBOX + 1
def TOKEN_RULE : Int := TOKEN_VBOX + 1
def TOKEN_PARAGRAPH : Int := TOKEN_RULE + 1
def TOKEN_CODE : Int := TOKEN_PARAGRAPH + 1
def TOKEN_H1 : Int := TOKEN_CODE + 1
def TOKEN_H2 : Int := TOKEN_H1 + 1
def TOKEN_H3 : Int := TOKEN_H2 + 1
def TOKEN_A : Int := TOKEN_H3 + 1
def TOKEN_IMG : Int := TOKEN_A + 1
def TOKEN_TAG_LAST : Int := TOKEN_IMG + 1
def TOKEN_ATTRIBUTE_FIRST : Int := TOKEN_TAG_LAST
def TOKEN_MATCH : Int := TOKEN_ATTRIBUTE_FIRST
def TOKEN_CLASS : Int := TOKEN_MATCH + 1
def TOKEN_GLOBAL : Int := TOKEN_CLASS + 1
def TOKEN_WIDTH : Int := TOKEN_GLOBAL + 1
def TOKEN_HEIGHT : Int := TOKEN_WIDTH + 1
def TOKEN_MIN_WIDTH : Int := TOKEN_HEIGHT + 1
def TOKEN_MIN_HEIGHT : Int := TOKEN_MIN_WIDTH + 1
def TOKEN_MAX_WIDTH : Int := TOKEN_MIN_HEIGHT + 1
def TOKEN_MAX_HEIGHT : Int := TOKEN_MAX_WIDTH + 1
def TOKEN_GROW : Int := TOKEN_MAX_HEIGHT + 1
def TOKEN_SHRINK : Int := TOKEN_GROW + 1
def TOKEN_PADDING : Int := TOKEN_SHRINK + 1
def TOKEN_PADDING_LEFT : Int := TOKEN_PADDING + 1
def TOKEN_PADDING_RIGHT : Int := TOKEN_PADDING_LEFT + 1
def TOKEN_PADDING_TOP : Int := TOKEN_PADDING_RIGHT + 1
def TOKEN_PADDING_BOTTOM : Int := TOKEN_PADDING_TOP + 1
def TOKEN_MARGIN : Int := TOKEN_PADDING_BOTTOM + 1
def TOKEN_MARGIN_LEFT : Int := TOKEN_MARGIN + 1
def TOKEN_MARGIN_RIGHT : Int := TOKEN_MARGIN_LEFT + 1
def TOKEN_MARGIN_TOP : Int := TOKEN_MARGIN_RIGHT + 1
def TOKEN_MARGIN_BOTTOM : Int := TOKEN_MARGIN_TOP + 1
def TOKEN_ARRANGE : Int := TOKEN_MARGIN_BOTTOM + 1
def TOKEN_ALIGN : Int := TOKEN_ARRANGE + 1
def TOKEN_JUSTIFY : Int := TOKEN_ALIGN + 1
def TOKEN_LEADING : Int := TOKEN_JUSTIFY + 1
def TOKEN_INDENT : Int := TOKEN_LEADING + 1
def TOKEN_COLOR : Int := TOKEN_INDENT + 1
def TOKEN_SELECTION_COLOR : Int := TOKEN_COLOR + 1
def TOKEN_SELECTION_FILL_COLOR : Int := TOKEN_SELECTION_COLOR + 1
def TOKEN_URL : Int := TOKEN_SELECTION_FILL_COLOR + 1
def TOKEN_LAYOUT : Int := TOKEN_URL + 1
def TOKEN_FONT : Int := TOKEN_LAYOUT + 1
def TOKEN_FONT_SIZE : Int := TOKEN_FONT + 1
def TOKEN_BOLD : Int := TOKEN_FONT_SIZE + 1
def TOKEN_ITALIC : Int := TOKEN_BOLD + 1
def TOKEN_UNDERLINE : Int := TOKEN_ITALIC + 1
def TOKEN_WHITE_SPACE : Int := TOKEN_UNDERLINE + 1
def TOKEN_WRAP : Int := TOKEN_WHITE_SPACE + 1
def TOKEN_BACKGROUND : Int := TOKEN_WRAP + 1
def TOKEN_BACKGROUND_COLOR : Int := TOKEN_BACKGROUND + 1
def TOKEN_BACKGROUND_WIDTH : Int := TOKEN_BACKGROUND_COLOR + 1
def TOKEN_BACKGROUND_HEIGHT : Int := TOKEN_BACKGROUND_WIDTH + 1
def TOKEN_BACKGROUND_SIZE : Int := TOKEN_BACKGROUND_HEIGHT + 1
def TOKEN_BACKGROUND_OFFSET_X : Int := TOKEN_BACKGROUND_SIZE + 1
def TOKEN_BACKGROUND_OFFSET_Y : Int := TOKEN_BACKGROUND_OFFSET_X + 1
def TOKEN_BACKGROUND_HORIZONTAL_ALIGNMENT : Int := TOKEN_BACKGROUND_OFFSET_Y + 1
def TOKEN_BACKGROUND_VERTICAL_ALIGNMENT : Int := TOKEN_BACKGROUND_HORIZONTAL_ALIGNMENT + 1
def TOKEN_BACKGROUND_BOX : Int := TOKEN_BACKGROUND_VERTICAL_ALIGNMENT + 1
def TOKEN_BORDER_COLOR : Int := TOKEN_BACKGROUND_BOX + 1
def TOKEN_BORDER_WIDTH : Int := TOKEN_BORDER_COLOR + 1
def TOKEN_TINT : Int := TOKEN_BORDER_WIDTH + 1
def TOKEN_CLIP : Int := TOKEN_TINT + 1
def TOKEN_CLIP_LEFT : Int := TOKEN_CLIP + 1
def TOKEN_CLIP_RIGHT : Int := TOKEN_CLIP_LEFT + 1
def TOKEN_CLIP_TOP : Int := TOKEN_CLIP_RIGHT + 1
def TOKEN_CLIP_BOTTOM : Int := TOKEN_CLIP_TOP + 1
def TOKEN_CLIP_BOX : Int := TOKEN_CLIP_BOTTOM + 1
def TOKEN_CURSOR : Int := TOKEN_CLIP_BOX + 1
def TOKEN_ENABLED : Int := TOKEN_CURSOR + 1
def TOKEN_ATTRIBUTE_LAST : Int := TOKEN_ENABLED + 1
def TOKEN_ATTRIBUTE_VALUE_FIRST : Int := TOKEN_ATTRIBUTE_LAST
def TOKEN_UNDEFINED : Int := TOKEN_ATTRIBUTE_VALUE_FIRST
def TOKEN_NONE : Int := TOKEN_UNDEFINED + 1
def TOKEN_ALL : Int := TOKEN_NONE + 1
def TOKEN_AUTO : Int := TOKEN_ALL + 1
def TOKEN_DEFAULT : Int := TOKEN_AUTO + 1
def TOKEN_FALSE : Int := TOKEN_DEFAULT + 1
def TOKEN_TRUE : Int := TOKEN_FALSE + 1
def TOKEN_LEFT : Int := TOKEN_TRUE + 1
def TOKEN_RIGHT : Int := TOKEN_LEFT + 1
def TOKEN_TOP : Int := TOKEN_RIGHT + 1
def TOKEN_BOTTOM : Int := TOKEN_TOP + 1
def TOKEN_HORIZONTAL : Int := TOKEN_BOTTOM + 1
def TOKEN_VERTICAL : Int := TOKEN_HORIZONTAL + 1
def TOKEN_RGB : Int := TOKEN_VERTICAL + 1
def TOKEN_RGBA : Int := TOKEN_RGB + 1
def TOKEN_ALPHA : Int := TOKEN_RGBA + 1
def TOKEN_BLOCK : Int := TOKEN_ALPHA + 1
def TOKEN_INLINE : Int := TOKEN_BLOCK + 1
def TOKEN_INLINE_CONTAINER : Int := TOKEN_INLINE + 1
def TOKEN_START : Int := TOKEN_INLINE_CONTAINER + 1
def TOKEN_MIDDLE : Int := TOKEN_START + 1
def TOKEN_END : Int := TOKEN_MIDDLE + 1
def TOKEN_CENTER : Int := TOKEN_END + 1
def TOKEN_FLUSH : Int := TOKEN_CENTER + 1
def TOKEN_FIT : Int := TOKEN_FLUSH + 1
def TOKEN_FILL : Int := TOKEN_FIT + 1
def TOKEN_CONTENT_BOX : Int := TOKEN_FILL + 1
def TOKEN_PADDING_BOX : Int := TOKEN_CONTENT_BOX + 1
def TOKEN_MARGIN_BOX : Int := TOKEN_PADDING_BOX + 1
def TOKEN_FLAT : Int := TOKEN_MARGIN_BOX + 1
def TOKEN_SUNKEN : Int := TOKEN_FLAT + 1
def TOKEN_RAISED : Int := TOKEN_SUNKEN + 1
def TOKEN_NORMAL : Int := TOKEN_RAISED + 1
def TOKEN_PRESERVE : Int := TOKEN_NORMAL + 1
def TOKEN_WORD_WRAP : Int := TOKEN_PRESERVE + 1
def TOKEN_CHARACTER_WRAP : Int := TOKEN_WORD_WRAP + 1
def TOKEN_CURSOR_HAND : Int := TOKEN_CHARACTER_WRAP + 1
def TOKEN_CURSOR_CARET : Int := TOKEN_CURSOR_HAND + 1
def TOKEN_CURSOR_CROSSHAIR : Int := TOKEN_CURSOR_CARET + 1
def TOKEN_CURSOR_MOVE : Int := TOKEN_CURSOR_CROSSHAIR + 1
def TOKEN_CURSOR_SIZE_NS : Int := TOKEN_CURSOR_MOVE + 1
def TOKEN_CURSOR_SIZE_EW : Int := TOKEN_CURSOR_SIZE_NS + 1
def TOKEN_CURSOR_WAIT : Int := TOKEN_CURSOR_SIZE_EW + 1
def TOKEN_ATTRIBUTE_VALUE_LAST : Int := TOKEN_CURSOR_WAIT + 1
def TOKEN_KEYWORD_LAST : Int := TOKEN_ATTRIBUTE_VALUE_LAST
def NUM_KEYWORDS : Int := TOKEN_KEYWORD_LAST - TOKEN_KEYWORD_FIRST
def NUM_TAG_TOKENS : Int := TOKEN_TAG_LAST - TOKEN_TAG_FIRST
def NUM_ATTRIBUTE_TOKENS : Int := TOKEN_ATTRIBUTE_LAST - TOKEN_ATTRIBUTE_FIRST
def NUM_ATTRIBUTE_VALUE_TOKENS : Int := TOKEN_ATTRIBUTE_VALUE_LAST - TOKEN_ATTRIBUTE_VALUE_FIRST
def NUM_TOKENS : Int := TOKEN_KEYWORD_LAST

/-! ## stacker_attribute.h -/

def ADEF_UNDEFINED : Int := 0
def ADEF_DEFINED : Int := 1

/-! ### enum FlagMode -/

def FLAGMODE_FALSE : Int := ADEF_DEFINED
def FLAGMODE_TRUE : Int := FLAGMODE_FALSE + 1
def FLAGMODE_LAST : Int := FLAGMODE_TRUE + 1

/-- All enumerators of `FlagMode`, in declaration order. -/
def FlagMode_enumerators : List Int :=
  [FLAGMODE_FALSE, FLAGMODE_TRUE, FLAGMODE_LAST]

/-! ### enum DimensionMode -/

def DMODE_AUTO : Int := ADEF_DEFINED
def DMODE_ABSOLUTE : Int := DMODE_AUTO + 1
def DMODE_FRACTIONAL : Int := DMODE_ABSOLUTE + 1
def DMODE_LAST : Int := DMODE_FRACTIONAL + 1

/-- All enumerators of `DimensionMode`, in declaration order. -/
def DimensionMode_enumerators : List Int :=
  [DMODE_AUTO, DMODE_ABSOLUTE, DMODE_FRACTIONAL, DMODE_LAST]

/-! ### enum Alignment -/

def ALIGN_START : Int := ADEF_DEFINED
def ALIGN_MIDDLE : Int := ALIGN_START + 1
def ALIGN_END : Int := ALIGN_MIDDLE + 1
def ALIGN_SENTINEL : Int := ALIGN_END + 1

/-- All enumerators of `Alignment`, in declaration order. -/
def Alignment_enumerators : List Int :=
  [ALIGN_START, ALIGN_MIDDLE, ALIGN_END, ALIGN_SENTINEL]

/-! ### enum Justification -/

def JUSTIFY_LEFT : Int := ADEF_DEFINED
def JUSTIFY_CENTER : Int := JUSTIFY_LEFT + 1
def JUSTIFY_RIGHT : Int := JUSTIFY_CENTER + 1
def JUSTIFY_FLUSH : Int := JUSTIFY_RIGHT + 1
def JUSTIFY_SENTINEL : Int := JUSTIFY_FLUSH + 1

/-- All enumerators of `Justification`, in declaration order. -/
def Justification_enumerators : List Int :=
  [JUSTIFY_LEFT, JUSTIFY_CENTER, JUSTIFY_RIGHT, JUSTIFY_FLUSH, JUSTIFY_SENTINEL]

/-! ### enum PaneType -/

def PANE_FLAT : Int := ADEF_DEFINED
def PANE_SUNKEN : Int := PANE_FLAT + 1
def PANE_RAISED : Int := PANE_SUNKEN + 1
def PANE_LAST : Int := PANE_RAISED + 1
def NUM_PANE_TYPES : Int := PANE_LAST - PANE_FLAT

/-- All enumerators of `PaneType`, in declaration order. -/
def PaneType_enumerators : List Int :=
  [PANE_FLAT, PANE_SUNKEN, PANE_RAISED, PANE_LAST, NUM_PANE_TYPES]

/-! ### enum BackgroundMode -/

def BGMODE_URL : Int := ADEF_DEFINED
def BGMODE_COLOR : Int := BGMODE_URL + 1
def BGMODE_PANE_FIRST : Int := BGMODE_COLOR + 1
def BGMODE_PANE_LAST : Int := BGMODE_PANE_FIRST + NUM_PANE_TYPES - 1
def BGMODE_LAST : Int := BGMODE_PANE_LAST + 1

/-- All enumerators of `BackgroundMode`, in declaration order. -/
def BackgroundMode_enumerators : List Int :=
  [BGMODE_URL, BGMODE_COLOR, BGMODE_PANE_FIRST, BGMODE_PANE_LAST, BGMODE_LAST]

/-! ### enum WhiteSpaceMode -/

def WSM_NORMAL : Int := ADEF_DEFINED
def WSM_PRESERVE : Int := WSM_NORMAL + 1

/-- All enumerators of `WhiteSpaceMode`, in declaration order. -/
def WhiteSpaceMode_enumerators : List Int :=
  [WSM_NORMAL, WSM_PRESERVE]

/-! ### enum WrapMode -/

def WRAPMODE_WORD : Int := ADEF_DEFINED
def WRAPMODE_CHARACTER : Int := WRAPMODE_WORD + 1
def WRAP_SENTINEL : Int := WRAPMODE_CHARACTER + 1

/-- All enumerators of `WrapMode`, in declaration order. -/
def WrapMode_enumerators : List Int :=
  [WRAPMODE_WORD, WRAPMODE_CHARACTER, WRAP_SENTINEL]

/-! ### enum LayerPositioningMode -/

def VLPM_STANDARD : Int := ADEF_DEFINED
def VLPM_FIT : Int := VLPM_STANDARD + 1
def VLPM_FILL : Int := VLPM_FIT + 1
def VLPM_SENTINEL : Int := VLPM_FILL + 1

/-- All enumerators of `LayerPositioningMode`, in declaration order. -/
def LayerPositioningMode_enumerators : List Int :=
  [VLPM_STANDARD, VLPM_FIT, VLPM_FILL, VLPM_SENTINEL]

/-! ### enum BoundingBox -/

def BBOX_CONTENT : Int := ADEF_DEFINED
def BBOX_PADDING : Int := BBOX_CONTENT + 1
def BBOX_OUTER : Int := BBOX_PADDING + 1
def BBOX_SENTINEL : Int := BBOX_OUTER + 1

/-- All enumerators of `BoundingBox`, in declaration order. -/
def BoundingBox_enumerators : List Int :=
  [BBOX_CONTENT, BBOX_PADDING, BBOX_OUTER, BBOX_SENTINEL]

/-! ### enum LayoutContext -/

def LCTX_NO_LAYOUT : Int := ADEF_DEFINED
def LCTX_BLOCK : Int := LCTX_NO_LAYOUT + 1
def LCTX_INLINE : Int := LCTX_BLOCK + 1
def LCTX_INLINE_CONTAINER : Int := LCTX_INLINE + 1
def LCTX_SENTINEL : Int := LCTX_INLINE_CONTAINER + 1

/-- All enumerators of `LayoutContext`, in declaration order. -/
def LayoutContext_enumerators : List Int :=
  [LCTX_NO_LAYOUT, LCTX_BLOCK, LCTX_INLINE, LCTX_INLINE_CONTAINER, LCTX_SENTINEL]

/-! ### enum EdgeFlag -/

def EDGE_FLAG_NONE : Int := ADEF_DEFINED
def EDGE_FLAG_LEFT : Int := ((1 <<< 1 : Nat) : Int)
def EDGE_FLAG_RIGHT : Int := ((1 <<< 2 : Nat) : Int)
def EDGE_FLAG_TOP : Int := ((1 <<< 3 : Nat) : Int)
def EDGE_FLAG_BOTTOM : Int := ((1 <<< 4 : Nat) : Int)
def EDGE_FLAG_HORIZONTAL : Int := ((EDGE_FLAG_LEFT.toNat ||| EDGE_FLAG_RIGHT.toNat : Nat) : Int)
def EDGE_FLAG_VERTICAL : Int := ((EDGE_FLAG_TOP.toNat ||| EDGE_FLAG_BOTTOM.toNat : Nat) : Int)
def EDGE_FLAG_ALL : Int := ((EDGE_FLAG_HORIZONTAL.toNat ||| EDGE_FLAG_VERTICAL.toNat : Nat) : Int)

/-- All enumerators of `EdgeFlag`, in declaration order. -/
def EdgeFlag_enumerators : List Int :=
  [EDGE_FLAG_NONE, EDGE_FLAG_LEFT, EDGE_FLAG_RIGHT, EDGE_FLAG_TOP, EDGE_FLAG_BOTTOM, EDGE_FLAG_HORIZONTAL, EDGE_FLAG_VERTICAL, EDGE_FLAG_ALL]

/-! ### enum CursorType -/

def CT_DEFAULT : Int := ADEF_DEFINED
def CT_HAND : Int := CT_DEFAULT + 1
def CT_CARET : Int := CT_HAND + 1
def CT_CROSSHAIR : Int := CT_CARET + 1
def CT_MOVE : Int := CT_CROSSHAIR + 1
def CT_SIZE_NS : Int := CT_MOVE + 1
def CT_SIZE_EW : Int := CT_SIZE_NS + 1
def CT_WAIT : Int := CT_SIZE_EW + 1
def CT_SENTINEL : Int := CT_WAIT + 1

/-- All enumerators of `CursorType`, in declaration order. -/
def CursorType_enumerators : List Int :=
  [CT_DEFAULT, CT_HAND, CT_CARET, CT_CROSSHAIR, CT_MOVE, CT_SIZE_NS, CT_SIZE_EW, CT_WAIT, CT_SENTINEL]

/-- The enumerator lists of every attribute mode enumeration of the header. -/
def attribute_mode_enums : List (List Int) :=
  [FlagMode_enumerators,
   DimensionMode_enumerators,
   Alignment_enumerators,
   Justification_enumerators,
   PaneType_enumerators,
   BackgroundMode_enumerators,
   WhiteSpaceMode_enumerators,
   WrapMode_enumerators,
   LayerPositioningMode_enumerators,
   BoundingBox_enumerators,
   LayoutContext_enumerators,
   EdgeFlag_enumerators,
   CursorType_enumerators]

/-! ### ValueSemantic, AttributeOperator, VariantType -/

inductive ValueSemantic where
  | VSEM_INVALID
  | VSEM_NONE
  | VSEM_BOOLEAN
  | VSEM_LIST
  | VSEM_TOKEN
  | VSEM_PERCENTAGE
  | VSEM_URL
  | VSEM_COLOR
  | VSEM_PANE
  | VSEM_EDGES
  deriving DecidableEq, Repr

inductive AttributeOperator where
  | AOP_SET
  | AOP_OVERRIDE
  | AOP_COMPUTED
  | AOP_ADD
  | AOP_SUBTRACT
  | AOP_MULTIPLY
  | AOP_DIVIDE
  deriving DecidableEq, Repr

inductive VariantType where
  | VTYPE_INTEGER
  | VTYPE_FLOAT
  | VTYPE_STRING
  deriving DecidableEq, Repr

open ValueSemantic AttributeOperator VariantType

/-- The anonymous union of `Variant`: the member that was written last.
A `const char *` is modelled by the characters it points to, a `float` by the
rational number it denotes. -/
inductive VariantPayload where
  | string (data : String) (length : Nat)
  | integer (value : Int)
  | real (value : ℚ)
  deriving DecidableEq, Repr

structure Variant where
  type : VariantType
  semantic : ValueSemantic
  payload : VariantPayload
  deriving DecidableEq, Repr

structure AttributeAssignment where
  name : Token
  op : AttributeOperator
  value : Variant
  deriving DecidableEq, Repr

/-- C `strlen`: the number of characters before the first NUL. -/
def strlen (s : String) : Nat :=
  (s.toList.takeWhile (fun c => c.toNat ≠ 0)).length

def variant_set_integer (v : Variant) (value : Int)
    (vs : ValueSemantic := VSEM_NONE) : Variant :=
  let v := { v with type := VTYPE_INTEGER }
  let v := { v with semantic := vs }
  { v with payload := .integer value }

def variant_set_float (v : Variant) (value : ℚ)
    (vs : ValueSemantic := VSEM_NONE) : Variant :=
  let v := { v with type := VTYPE_FLOAT }
  let v := { v with semantic := vs }
  { v with payload := .real value }

def variant_set_string (v : Variant) (s : String) (length : Nat)
    (vs : ValueSemantic := VSEM_NONE) : Variant :=
  let v := { v with type := VTYPE_STRING }
  let v := { v with semantic := vs }
  { v with payload := .string s length }

/-- The overload of `variant_set_string` that measures the string itself.
The `size_t` result of `strlen` is converted to the `unsigned length`
parameter of the other overload, which keeps it modulo 2^32. -/
def variant_set_string_cstr (v : Variant) (s : String)
    (vs : ValueSemantic := VSEM_NONE) : Variant :=
  variant_set_string v s (strlen s % 4294967296) vs

/-- The payload member named by the type tag is the one that was written. -/
def Variant.tag_matches_payload (v : Variant) : Bool :=
  match v.type, v.payload with
  | VTYPE_INTEGER, .integer _ => true
  | VTYPE_FLOAT, .real _ => true
  | VTYPE_STRING, .string _ _ => true
  | _, _ => false

/-! ## Machine integers -/

/-- Conversion to `uint32_t`. -/
def to_uint32 (n : Int) : Nat := (n % 4294967296).toNat

/-- Conversion to `int` (32 bit, two's complement). -/
def to_int32 (n : Int) : Int := (n + 2147483648) % 4294967296 - 2147483648

/-- Conversion to `int16_t` (two's complement). -/
def to_int16 (n : Int) : Int := (n + 32768) % 65536 - 32768

/-- Integral promotion of a `bool`. -/
def bool_to_int (b : Bool) : Int := if b then 1 else 0

/-! ## Declarations used by stacker_system.cpp -/

/-- A font request: `face` holds the characters of the `face` buffer up to its
terminating NUL, `font_size` is an `unsigned`, `flags` a `uint16_t`. -/
structure LogicalFont where
  face : String
  font_size : Nat
  flags : Nat
  deriving DecidableEq, Repr

/-- The metrics fields that stacker_system.cpp reads or writes. -/
structure FontMetrics where
  height : Int
  em_width : Int
  space_width : Int
  space_stretch : Int
  space_shrink : Int
  paragraph_indent_width : Int
  deriving DecidableEq, Repr

/-- One slot of `System::font_cache`.  A `void *` handle is a number, `NULL`
being 0. -/
structure CachedFont where
  key : Nat
  handle : Nat
  descriptor : LogicalFont
  metrics : FontMetrics
  deriving DecidableEq, Repr

/-- The part of `System` used by the font cache.  `font_cache` is the array as
memory: a slot for every index, of which the first `font_cache_entries` are in
use. -/
structure System where
  back_end : Nat
  default_font_id : Int
  debug_label_font_id : Int
  default_font_descriptor : LogicalFont
  font_cache_entries : Nat
  font_cache : Nat → CachedFont

/-- Constants and functions that stacker_system.cpp takes from headers and
translation units outside this development.  Every definition below is
parametric in them. -/
structure External where
  /-- Style bits tested by `add_font_assignments`. -/
  STYLE_BOLD : Nat
  STYLE_ITALIC : Nat
  STYLE_UNDERLINE : Nat
  DEFAULT_FONT_FACE : String
  DEFAULT_FONT_SIZE : Nat
  DEFAULT_FONT_FLAGS : Nat
  DEFAULT_FIXED_FONT_FACE : String
  DEFAULT_FIXED_FONT_SIZE : Nat
  DEFAULT_FIXED_FONT_FLAGS : Nat
  DEFAULT_TEXT_COLOR : Nat
  DEFAULT_LINK_COLOR : Nat
  DEFAULT_HIGHLIGHTED_LINK_COLOR : Nat
  DEFAULT_ACTIVE_LINK_COLOR : Nat
  RFLAG_ENABLED : Nat
  RFLAG_GLOBAL : Nat
  RULE_PRIORITY_LOWEST : Int
  INVALID_FONT_ID : Int
  MAX_CACHED_FONTS : Nat
  /-- The value of `sizeof(descriptor->face)`. -/
  sizeof_face : Nat
  TEXT_METRIC_PRECISION : Nat
  /-- The defaults of the trailing `vs` and `op` parameters of
  `make_assignment`. -/
  make_assignment_vs : ValueSemantic
  make_assignment_op : AttributeOperator
  /-- The hash: `murmur3_32 key len seed`. -/
  murmur3_32 : String → Nat → Nat → Nat
  fixed_multiply : Int → Int → Nat → Int
  /-- The platform: `platform_match_font back_end logfont` is the handle, 0
  when no font matches. -/
  platform_match_font : Nat → LogicalFont → Nat
  /-- The platform fills the metrics slot it is handed. -/
  platform_font_metrics : Nat → Nat → FontMetrics → FontMetrics

/-! ## stacker_system.cpp: the font cache -/

def make_font_descriptor (ext : External) (descriptor : LogicalFont)
    (face : Option String) (size : Nat) (flags : Nat) : LogicalFont :=
  let descriptor :=
    match face with
    | some face =>
      { descriptor with
        face := String.mk ((face.toList.takeWhile (fun (c : Char) => c.toNat ≠ 0)).take
          (ext.sizeof_face - 1)) }
    | none => { descriptor with face := "" }
  let descriptor := { descriptor with font_size := size % 4294967296 }
  { descriptor with flags := flags % 65536 }

/-- The seed of `make_font_key`: `font_size | (flags << 16)` as a `uint32_t`. -/
def font_key_seed (logfont : LogicalFont) : Nat :=
  (logfont.font_size ||| (logfont.flags <<< 16)) % 4294967296

def make_font_key (ext : External) (logfont : LogicalFont) : Nat :=
  let seed := font_key_seed logfont
  ext.murmur3_32 logfont.face (strlen logfont.face) seed

def calculate_derived_font_metrics (ext : External) (metrics : FontMetrics) :
    FontMetrics :=
  let ONE_THIRD : Int := (1 <<< ext.TEXT_METRIC_PRECISION : Nat) / 3
  let ONE_SIXTH : Int := (1 <<< ext.TEXT_METRIC_PRECISION : Nat) / 6
  let ONE_NINTH : Int := (1 <<< ext.TEXT_METRIC_PRECISION : Nat) / 9
  let metrics := { metrics with
    space_width := ext.fixed_multiply metrics.em_width ONE_THIRD ext.TEXT_METRIC_PRECISION }
  let metrics := { metrics with
    space_stretch := ext.fixed_multiply metrics.em_width ONE_SIXTH ext.TEXT_METRIC_PRECISION }
  let metrics := { metrics with
    space_shrink := ext.fixed_multiply metrics.em_width ONE_NINTH ext.TEXT_METRIC_PRECISION }
  { metrics with paragraph_indent_width := metrics.em_width }

/-- A call made to the platform back end. -/
inductive PlatformCall where
  | match_font (back_end : Nat) (logfont : LogicalFont)
  | font_metrics (back_end : Nat) (handle : Nat)
  deriving DecidableEq, Repr

/-- What a call of `get_font_id` leaves behind: the returned ID, the system
and the platform calls it made, in order. -/
structure FontIdResult where
  id : Int
  system : System
  platform_calls : List PlatformCall

/-- Writing `a[i] = x`. -/
def array_set {α : Type} (a : Nat → α) (i : Nat) (x : α) : Nat → α :=
  fun j => if j = i then x else a j

/-- The scan of `get_font_id`: the first index below `font_cache_entries`
whose slot has the key. -/
def find_cached_key (system : System) (key : Nat) : Option Nat :=
  (List.range system.font_cache_entries).find?
    (fun i => (system.font_cache i).key == key)

/-- The entry `i` is the first one in use that has the key. -/
def first_cached (system : System) (key : Nat) (i : Nat) : Prop :=
  i < system.font_cache_entries ∧ (system.font_cache i).key = key ∧
    ∀ j, j < i → (system.font_cache j).key ≠ key

/-- No entry in use has the key. -/
def not_cached (system : System) (key : Nat) : Prop :=
  ∀ j, j < system.font_cache_entries → (system.font_cache j).key ≠ key

def get_font_id (ext : External) (system : System) (logfont : LogicalFont) :
    FontIdResult :=
  let key := make_font_key ext logfont
  match find_cached_key system key with
  | some i => { id := to_int16 i, system := system, platform_calls := [] }
  | none =>
    if system.font_cache_entries = ext.MAX_CACHED_FONTS then
      { id := 0, system := system, platform_calls := [] }
    else
      let handle := ext.platform_match_font system.back_end logfont
      if handle = 0 then
        { id := system.default_font_id, system := system,
          platform_calls := [.match_font system.back_end logfont] }
      else
        let cf := system.font_cache system.font_cache_entries
        let cf := { cf with key := key }
        let cf := { cf with handle := handle }
        let cf := { cf with descriptor := logfont }
        let cf := { cf with
          metrics := ext.platform_font_metrics system.back_end handle cf.metrics }
        let cf := { cf with
          metrics := calculate_derived_font_metrics ext cf.metrics }
        { id := to_int16 system.font_cache_entries,
          system := { system with
            font_cache := array_set system.font_cache system.font_cache_entries cf,
            font_cache_entries := system.font_cache_entries + 1 },
          platform_calls := [.match_font system.back_end logfont,
            .font_metrics system.back_end handle] }

/-- The font cache as `create_system` sets it up; `none` when the `ensure` on
the default font fails. -/
def initialize_font_cache (ext : External) (system : System) : Option System :=
  let system := { system with default_font_id := ext.INVALID_FONT_ID }
  let system := { system with font_cache_entries := 0 }
  let system := { system with
    default_font_descriptor := make_font_descriptor ext system.default_font_descriptor
      (some ext.DEFAULT_FONT_FACE) ext.DEFAULT_FONT_SIZE ext.DEFAULT_FONT_FLAGS }
  let r := get_font_id ext system system.default_font_descriptor
  let system := { r.system with default_font_id := r.id }
  if system.default_font_id ≠ ext.INVALID_FONT_ID then
    some { system with debug_label_font_id := ext.INVALID_FONT_ID }
  else
    none

/-- The descriptor behind a font ID; `none` when the `assertb` on the index
fails. -/
def get_font_descriptor (ext : External) (system : System) (font_id : Int) :
    Option LogicalFont :=
  if font_id ≠ ext.INVALID_FONT_ID then
    if to_uint32 font_id < system.font_cache_entries then
      some (system.font_cache (to_uint32 font_id)).descriptor
    else
      none
  else
    some system.default_font_descriptor

/-! ## stacker_system.cpp: the built-in rules -/

/-- The contents of a local `Variant` before it is first written. -/
def Variant.unset : Variant :=
  { type := VTYPE_INTEGER, semantic := VSEM_INVALID, payload := .integer 0 }

/-- Modelled from the spec: `make_assignment`, whose header is not part of
this development.  An `AttributeAssignment` is `{ name, op, value }`; the
helper stores the name and the operator it is given and builds the value with
the `variant_set_*` helper of the argument's type.  This is the overload for
an `int` argument, which also takes tokens and promoted `bool`s. -/
def make_assignment_int (ext : External) (name : Token) (value : Int)
    (vs : ValueSemantic := ext.make_assignment_vs)
    (op : AttributeOperator := ext.make_assignment_op) : AttributeAssignment :=
  { name := name, op := op, value := variant_set_integer Variant.unset value vs }

/-- Modelled from the spec: `make_assignment` for an `unsigned` argument,
stored in the `int` member of the value. -/
def make_assignment_unsigned (ext : External) (name : Token) (value : Nat)
    (vs : ValueSemantic := ext.make_assignment_vs)
    (op : AttributeOperator := ext.make_assignment_op) : AttributeAssignment :=
  { name := name, op := op,
    value := variant_set_integer Variant.unset (to_int32 value) vs }

/-- Modelled from the spec: `make_assignment` for a `float` argument. -/
def make_assignment_float (ext : External) (name : Token) (value : ℚ)
    (vs : ValueSemantic := ext.make_assignment_vs)
    (op : AttributeOperator := ext.make_assignment_op) : AttributeAssignment :=
  { name := name, op := op, value := variant_set_float Variant.unset value vs }

/-- Modelled from the spec: `make_assignment` for a `const char *`
argument. -/
def make_assignment_cstr (ext : External) (name : Token) (value : String)
    (vs : ValueSemantic := ext.make_assignment_vs)
    (op : AttributeOperator := ext.make_assignment_op) : AttributeAssignment :=
  { name := name, op := op, value := variant_set_string_cstr Variant.unset value vs }

def add_font_assignments (ext : External) (attributes : Nat → AttributeAssignment)
    (count : Nat) (face : String) (size : Nat) (flags : Nat) :
    (Nat → AttributeAssignment) × Nat :=
  let attributes := array_set attributes count
    (make_assignment_cstr ext TOKEN_FONT face)
  let count := count + 1
  let attributes := array_set attributes count
    (make_assignment_unsigned ext TOKEN_FONT_SIZE size)
  let count := count + 1
  let attributes := array_set attributes count
    (make_assignment_int ext TOKEN_BOLD
      (bool_to_int ((flags &&& ext.STYLE_BOLD) != 0)) VSEM_BOOLEAN)
  let count := count + 1
  let attributes := array_set attributes count
    (make_assignment_int ext TOKEN_ITALIC
      (bool_to_int ((flags &&& to_uint32 TOKEN_ITALIC) != 0)) VSEM_BOOLEAN)
  let count := count + 1
  let attributes := array_set attributes count
    (make_assignment_int ext TOKEN_UNDERLINE
      (bool_to_int ((flags &&& ext.STYLE_UNDERLINE) != 0)) VSEM_BOOLEAN)
  let count := count + 1
  (attributes, count)

/-- The arguments of one `add_rule` call after the leading
`NULL, system, NULL`: selector, selector length, the attribute array, the
count, the flags and the priority. -/
structure AddRuleArgs where
  selector : String
  selector_length : Int
  attributes : Nat → AttributeAssignment
  count : Nat
  flags : Nat
  priority : Int

/-- `add_default_rules`, parametric in what `add_rule` does to the system.
`attributes` is the local array as it is found on entry. -/
def add_default_rules {σ : Type} (ext : External) (add_rule : σ → AddRuleArgs → σ)
    (attributes : Nat → AttributeAssignment) (system : σ) : σ :=
  let count := 0
  let attributes := array_set attributes count
    (make_assignment_unsigned ext TOKEN_COLOR ext.DEFAULT_TEXT_COLOR VSEM_COLOR)
  let count := count + 1
  let attributes := array_set attributes count
    (make_assignment_int ext TOKEN_JUSTIFY TOKEN_LEFT VSEM_TOKEN)
  let count := count + 1
  let attributes := array_set attributes count
    (make_assignment_int ext TOKEN_WRAP TOKEN_WORD_WRAP VSEM_TOKEN)
  let count := count + 1
  let attributes := array_set attributes count
    (make_assignment_int ext TOKEN_LEADING TOKEN_AUTO VSEM_TOKEN)
  let count := count + 1
  let attributes := array_set attributes count
    (make_assignment_int ext TOKEN_WHITE_SPACE TOKEN_NORMAL VSEM_TOKEN)
  let count := count + 1
  let (attributes, count) := add_font_assignments ext attributes count
    ext.DEFAULT_FONT_FACE ext.DEFAULT_FONT_SIZE ext.DEFAULT_FONT_FLAGS
  let system := add_rule system ⟨"document", -1, attributes, count,
    ext.RFLAG_ENABLED ||| ext.RFLAG_GLOBAL, ext.RULE_PRIORITY_LOWEST⟩

  let count := 0
  let attributes := array_set attributes count
    (make_assignment_int ext TOKEN_WIDTH TOKEN_GROW VSEM_TOKEN)
  let count := count + 1
  let attributes := array_set attributes count
    (make_assignment_int ext TOKEN_JUSTIFY TOKEN_FLUSH VSEM_TOKEN)
  let count := count + 1
  let attributes := array_set attributes count
    (make_assignment_int ext TOKEN_INDENT TOKEN_AUTO VSEM_TOKEN)
  let count := count + 1
  let system := add_rule system ⟨"p", -1, attributes, count,
    ext.RFLAG_ENABLED ||| ext.RFLAG_GLOBAL, ext.RULE_PRIORITY_LOWEST⟩

  let count := 0
  let attributes := array_set attributes count
    (make_assignment_int ext TOKEN_CURSOR TOKEN_CURSOR_HAND VSEM_TOKEN)
  let count := count + 1
  let attributes := array_set attributes count
    (make_assignment_int ext TOKEN_UNDERLINE (bool_to_int true) VSEM_BOOLEAN)
  let count := count + 1
  let attributes := array_set attributes count
    (make_assignment_unsigned ext TOKEN_COLOR ext.DEFAULT_LINK_COLOR VSEM_COLOR)
  let count := count + 1
  let system := add_rule system ⟨"a", -1, attributes, count,
    ext.RFLAG_ENABLED ||| ext.RFLAG_GLOBAL, ext.RULE_PRIORITY_LOWEST⟩

  let count := 0
  let attributes := array_set attributes count
    (make_assignment_unsigned ext TOKEN_COLOR ext.DEFAULT_HIGHLIGHTED_LINK_COLOR
      VSEM_COLOR)
  let count := count + 1
  let system := add_rule system ⟨"a:highlighted", -1, attributes, count,
    ext.RFLAG_ENABLED ||| ext.RFLAG_GLOBAL, ext.RULE_PRIORITY_LOWEST⟩

  let count := 0
  let attributes := array_set attributes count
    (make_assignment_unsigned ext TOKEN_COLOR ext.DEFAULT_ACTIVE_LINK_COLOR
      VSEM_COLOR)
  let count := count + 1
  let system := add_rule system ⟨"a:active", -1, attributes, count,
    ext.RFLAG_ENABLED ||| ext.RFLAG_GLOBAL, ext.RULE_PRIORITY_LOWEST⟩

  let count := 0
  let attributes := array_set attributes count
    (make_assignment_int ext TOKEN_WIDTH TOKEN_GROW VSEM_TOKEN)
  let count := count + 1
  let attributes := array_set attributes count
    (make_assignment_float ext TOKEN_FONT_SIZE (5 / 2) VSEM_NONE AOP_MULTIPLY)
  let count := count + 1
  let attributes := array_set attributes count
    (make_assignment_int ext TOKEN_BOLD (bool_to_int true) VSEM_BOOLEAN)
  let count := count + 1
  let system := add_rule system ⟨"h1", -1, attributes, count,
    ext.RFLAG_ENABLED ||| ext.RFLAG_GLOBAL, ext.RULE_PRIORITY_LOWEST⟩

  let count := 0
  let attributes := array_set attributes count
    (make_assignment_int ext TOKEN_WIDTH TOKEN_GROW VSEM_TOKEN)
  let count := count + 1
  let attributes := array_set attributes count
    (make_assignment_float ext TOKEN_FONT_SIZE 2 VSEM_NONE AOP_MULTIPLY)
  let count := count + 1
  let attributes := array_set attributes count
    (make_assignment_int ext TOKEN_BOLD (bool_to_int true) VSEM_BOOLEAN)
  let count := count + 1
  let system := add_rule system ⟨"h2", -1, attributes, count,
    ext.RFLAG_ENABLED ||| ext.RFLAG_GLOBAL, ext.RULE_PRIORITY_LOWEST⟩

  let count := 0
  let attributes := array_set attributes count
    (make_assignment_int ext TOKEN_WIDTH TOKEN_GROW VSEM_TOKEN)
  let count := count + 1
  let attributes := array_set attributes count
    (make_assignment_float ext TOKEN_FONT_SIZE (3 / 2) VSEM_NONE AOP_MULTIPLY)
  let count := count + 1
  let attributes := array_set attributes count
    (make_assignment_int ext TOKEN_BOLD (bool_to_int true) VSEM_BOOLEAN)
  let count := count + 1
  let system := add_rule system ⟨"h3", -1, attributes, count,
    ext.RFLAG_ENABLED ||| ext.RFLAG_GLOBAL, ext.RULE_PRIORITY_LOWEST⟩

  let count := 0
  let attributes := array_set attributes count
    (make_assignment_int ext TOKEN_WHITE_SPACE TOKEN_PRESERVE VSEM_TOKEN)
  let count := count + 1
  let (attributes, count) := add_font_assignments ext attributes count
    ext.DEFAULT_FIXED_FONT_FACE ext.DEFAULT_FIXED_FONT_SIZE
    ext.DEFAULT_FIXED_FONT_FLAGS
  add_rule system ⟨"code", -1, attributes, count,
    ext.RFLAG_ENABLED ||| ext.RFLAG_GLOBAL, ext.RULE_PRIORITY_LOWEST⟩

/-- The `add_rule` calls that `add_default_rules` makes, in order. -/
def default_rule_calls (ext : External) (attributes : Nat → AttributeAssignment) :
    List AddRuleArgs :=
  add_default_rules ext (fun calls args => calls ++ [args]) attributes []

/-- The assignments a rule is registered with: the first `count` slots of the
array handed to `add_rule`. -/
def AddRuleArgs.assignments (args : AddRuleArgs) : List AttributeAssignment :=
  (List.range args.count).map args.attributes

/-- The attribute names of the nine built-in rules, rule by rule. -/
def default_rule_names : List (List Token) :=
  [[TOKEN_COLOR, TOKEN_JUSTIFY, TOKEN_WRAP, TOKEN_LEADING, TOKEN_WHITE_SPACE,
      TOKEN_FONT, TOKEN_FONT_SIZE, TOKEN_BOLD, TOKEN_ITALIC, TOKEN_UNDERLINE],
    [TOKEN_WIDTH, TOKEN_JUSTIFY, TOKEN_INDENT],
    [TOKEN_CURSOR, TOKEN_UNDERLINE, TOKEN_COLOR],
    [TOKEN_COLOR],
    [TOKEN_COLOR],
    [TOKEN_WIDTH, TOKEN_FONT_SIZE, TOKEN_BOLD],
    [TOKEN_WIDTH, TOKEN_FONT_SIZE, TOKEN_BOLD],
    [TOKEN_WIDTH, TOKEN_FONT_SIZE, TOKEN_BOLD],
    [TOKEN_WHITE_SPACE, TOKEN_FONT, TOKEN_FONT_SIZE, TOKEN_BOLD, TOKEN_ITALIC,
      TOKEN_UNDERLINE]]

/-- The selector of every built-in rule with the name and operator of each of
its assignments. -/
def default_rule_operators (ext : External) :
    List (String × List (Token × AttributeOperator)) :=
  [("document", [(TOKEN_COLOR, ext.make_assignment_op), (TOKEN_JUSTIFY, ext.make_assignment_op),
      (TOKEN_WRAP, ext.make_assignment_op), (TOKEN_LEADING, ext.make_assignment_op),
      (TOKEN_WHITE_SPACE, ext.make_assignment_op), (TOKEN_FONT, ext.make_assignment_op),
      (TOKEN_FONT_SIZE, ext.make_assignment_op), (TOKEN_BOLD, ext.make_assignment_op),
      (TOKEN_ITALIC, ext.make_assignment_op), (TOKEN_UNDERLINE, ext.make_assignment_op)]),
    ("p", [(TOKEN_WIDTH, ext.make_assignment_op), (TOKEN_JUSTIFY, ext.make_assignment_op),
      (TOKEN_INDENT, ext.make_assignment_op)]),
    ("a", [(TOKEN_CURSOR, ext.make_assignment_op), (TOKEN_UNDERLINE, ext.make_assignment_op),
      (TOKEN_COLOR, ext.make_assignment_op)]),
    ("a:highlighted", [(TOKEN_COLOR, ext.make_assignment_op)]),
    ("a:active", [(TOKEN_COLOR, ext.make_assignment_op)]),
    ("h1", [(TOKEN_WIDTH, ext.make_assignment_op), (TOKEN_FONT_SIZE, AOP_MULTIPLY),
      (TOKEN_BOLD, ext.make_assignment_op)]),
    ("h2", [(TOKEN_WIDTH, ext.make_assignment_op), (TOKEN_FONT_SIZE, AOP_MULTIPLY),
      (TOKEN_BOLD, ext.make_assignment_op)]),
    ("h3", [(TOKEN_WIDTH, ext.make_assignment_op), (TOKEN_FONT_SIZE, AOP_MULTIPLY),
      (TOKEN_BOLD, ext.make_assignment_op)]),
    ("code", [(TOKEN_WHITE_SPACE, ext.make_assignment_op), (TOKEN_FONT, ext.make_assignment_op),
      (TOKEN_FONT_SIZE, ext.make_assignment_op), (TOKEN_BOLD, ext.make_assignment_op),
      (TOKEN_ITALIC, ext.make_assignment_op), (TOKEN_UNDERLINE, ext.make_assignment_op)])]

/-- The assignments of a rule that name `font-size`. -/
def AddRuleArgs.font_size_assignments (args : AddRuleArgs) :
    List AttributeAssignment :=
  args.assignments.filter (fun a => a.name == TOKEN_FONT_SIZE)

/-- The number a value stands for, when it is one. -/
def Variant.numeric (v : Variant) : Option ℚ :=
  match v.payload with
  | .integer i => some i
  | .real r => some r
  | .string _ _ => none

/-- Modelled from the spec: the fold step of the cascade, which is not part
of this development.  `AOP_SET`, `AOP_OVERRIDE` and `AOP_COMPUTED` replace the
accumulated value; `AOP_ADD`, `AOP_SUBTRACT`, `AOP_MULTIPLY` and `AOP_DIVIDE`
combine numerically with the accumulated value, the accumulated value being
the left operand; with nothing accumulated a numeric operator is an error,
which leaves the attribute undefined (`none`). -/
def fold_assignment (acc : Option ℚ) (a : AttributeAssignment) : Option ℚ :=
  match a.op, acc, a.value.numeric with
  | AOP_SET, _, v => v
  | AOP_OVERRIDE, _, v => v
  | AOP_COMPUTED, _, v => v
  | AOP_ADD, some x, some y => some (x + y)
  | AOP_SUBTRACT, some x, some y => some (x - y)
  | AOP_MULTIPLY, some x, some y => some (x * y)
  | AOP_DIVIDE, some x, some y => some (x / y)
  | _, _, _ => none

/-- The assignment `make_assignment(TOKEN_FONT_SIZE, factor, VSEM_NONE,
AOP_MULTIPLY)` of the heading rules. -/
def font_size_multiply (factor : ℚ) : AttributeAssignment :=
  { name := TOKEN_FONT_SIZE, op := AOP_MULTIPLY,
    value := { type := VTYPE_FLOAT, semantic := VSEM_NONE, payload := .real factor } }

/-! ## A concrete environment for evaluation -/

/-- Rotation of a 32-bit word to the left. -/
def rotl32 (x r : Nat) : Nat :=
  ((x <<< r) ||| (x >>> (32 - r))) % 4294967296

/-- The key scramble of MurmurHash3. -/
def murmur3_scramble (k : Nat) : Nat :=
  let k := (k * 0xcc9e2d51) % 4294967296
  let k := rotl32 k 15
  (k * 0x1b873593) % 4294967296

/-- The block loop and the tail of MurmurHash3 over a list of bytes. -/
def murmur3_blocks (h : Nat) : List Nat → Nat
  | b0 :: b1 :: b2 :: b3 :: rest =>
    let k := b0 ||| (b1 <<< 8) ||| (b2 <<< 16) ||| (b3 <<< 24)
    let h := h ^^^ murmur3_scramble k
    let h := rotl32 h 13
    let h := (h * 5 + 0xe6546b64) % 4294967296
    murmur3_blocks h rest
  | [b0, b1, b2] => h ^^^ murmur3_scramble (b0 ||| (b1 <<< 8) ||| (b2 <<< 16))
  | [b0, b1] => h ^^^ murmur3_scramble (b0 ||| (b1 <<< 8))
  | [b0] => h ^^^ murmur3_scramble b0
  | [] => h

/-- The finaliser of MurmurHash3. -/
def murmur3_fmix32 (h : Nat) : Nat :=
  let h := h ^^^ (h >>> 16)
  let h := (h * 0x85ebca6b) % 4294967296
  let h := h ^^^ (h >>> 13)
  let h := (h * 0xc2b2ae35) % 4294967296
  h ^^^ (h >>> 16)

/-- MurmurHash3 (x86, 32 bit) as published, over the first `len` characters
of the key.  It stands in for the repository's `murmur3_32` when a definition
is evaluated on concrete input. -/
def murmur3_32_published (key : String) (len : Nat) (seed : Nat) : Nat :=
  let bytes := (key.toList.take len).map (fun (c : Char) => c.toNat % 256)
  murmur3_fmix32 (murmur3_blocks (seed % 4294967296) bytes ^^^ (len % 4294967296))

/-- A back end that knows two faces and hands out the handles 1 and 2. -/
def sample_match_font (_back_end : Nat) (logfont : LogicalFont) : Nat :=
  if logfont.face = "Segoe UI" then 1
  else if logfont.face = "Consolas" then 2
  else 0

/-- A back end whose fonts are as high as their handle and twice as wide. -/
def sample_font_metrics (_back_end : Nat) (handle : Nat) (metrics : FontMetrics) :
    FontMetrics :=
  { metrics with height := handle * 65536, em_width := handle * 131072 }

/-- An environment for concrete evaluation. -/
def sample_external : External where
  STYLE_BOLD := 1
  STYLE_ITALIC := 2
  STYLE_UNDERLINE := 4
  DEFAULT_FONT_FACE := "Segoe UI"
  DEFAULT_FONT_SIZE := 16
  DEFAULT_FONT_FLAGS := 0
  DEFAULT_FIXED_FONT_FACE := "Consolas"
  DEFAULT_FIXED_FONT_SIZE := 16
  DEFAULT_FIXED_FONT_FLAGS := 0
  DEFAULT_TEXT_COLOR := 0xff000000
  DEFAULT_LINK_COLOR := 0xff0000ff
  DEFAULT_HIGHLIGHTED_LINK_COLOR := 0xff4040ff
  DEFAULT_ACTIVE_LINK_COLOR := 0xffff0000
  RFLAG_ENABLED := 1
  RFLAG_GLOBAL := 2
  RULE_PRIORITY_LOWEST := -128
  INVALID_FONT_ID := -1
  MAX_CACHED_FONTS := 32
  sizeof_face := 32
  TEXT_METRIC_PRECISION := 16
  make_assignment_vs := VSEM_NONE
  make_assignment_op := AOP_SET
  murmur3_32 := murmur3_32_published
  fixed_multiply := fun a b p => (a * b) / (2 ^ p : Nat)
  platform_match_font := sample_match_font
  platform_font_metrics := sample_font_metrics

/-- A local attribute array before anything is written to it. -/
def sample_attributes : Nat → AttributeAssignment :=
  fun _ => { name := TOKEN_INVALID, op := AOP_SET, value := Variant.unset }

/-- A system whose font cache is empty. -/
def sample_system : System where
  back_end := 0
  default_font_id := -1
  debug_label_font_id := -1
  default_font_descriptor := { face := "Segoe UI", font_size := 16, flags := 0 }
  font_cache_entries := 0
  font_cache := fun _ =>
    { key := 0, handle := 0, descriptor := { face := "", font_size := 0, flags := 0 },
      metrics := ⟨0, 0, 0, 0, 0, 0⟩ }

/-- A font of size 65536 without style flags. -/
def colliding_font_a : LogicalFont :=
  { face := "Segoe UI", font_size := 65536, flags := 0 }

/-- A font of size 0 with style flag bit 0, of the same face as
`colliding_font_a`. -/
def colliding_font_b : LogicalFont :=
  { face := "Segoe UI", font_size := 0, flags := 1 }

/-- A font the sample back end knows. -/
def sample_font : LogicalFont :=
  { face := "Consolas", font_size := 13, flags := 0 }

/-- A font the sample back end does not know. -/
def unknown_font : LogicalFont :=
  { face := "Comic Sans MS", font_size := 12, flags := 0 }

/-- The sixth rule that `add_default_rules` registers in the sample
environment, the one for h1. -/
def sample_h1_rule : AddRuleArgs :=
  (default_rule_calls sample_external sample_attributes).getD 5
    ⟨"", 0, sample_attributes, 0, 0, 0⟩

/-! # Theorems -/

/-- C1: every keyword token lies in exactly one of the tag-name, attribute-name
and attribute-value ranges, no token below `TOKEN_KEYWORD_FIRST` lies in any of
them, and the three range counts add up to
`NUM_KEYWORDS = NUM_TOKENS - TOKEN_KEYWORD_FIRST`. -/
theorem keyword_ranges_partition :
    (∀ t : Int, TOKEN_KEYWORD_FIRST ≤ t → t < TOKEN_KEYWORD_LAST →
      ((TOKEN_TAG_FIRST ≤ t ∧ t < TOKEN_TAG_LAST) ∧
          ¬ (TOKEN_ATTRIBUTE_FIRST ≤ t ∧ t < TOKEN_ATTRIBUTE_LAST) ∧
          ¬ (TOKEN_ATTRIBUTE_VALUE_FIRST ≤ t ∧ t < TOKEN_ATTRIBUTE_VALUE_LAST)) ∨
      (¬ (TOKEN_TAG_FIRST ≤ t ∧ t < TOKEN_TAG_LAST) ∧
          (TOKEN_ATTRIBUTE_FIRST ≤ t ∧ t < TOKEN_ATTRIBUTE_LAST) ∧
          ¬ (TOKEN_ATTRIBUTE_VALUE_FIRST ≤ t ∧ t < TOKEN_ATTRIBUTE_VALUE_LAST)) ∨
      (¬ (TOKEN_TAG_FIRST ≤ t ∧ t < TOKEN_TAG_LAST) ∧
          ¬ (TOKEN_ATTRIBUTE_FIRST ≤ t ∧ t < TOKEN_ATTRIBUTE_LAST) ∧
          (TOKEN_ATTRIBUTE_VALUE_FIRST ≤ t ∧ t < TOKEN_ATTRIBUTE_VALUE_LAST))) ∧
    (∀ t : Int, t < TOKEN_KEYWORD_FIRST →
      ¬ (TOKEN_TAG_FIRST ≤ t ∧ t < TOKEN_TAG_LAST) ∧
      ¬ (TOKEN_ATTRIBUTE_FIRST ≤ t ∧ t < TOKEN_ATTRIBUTE_LAST) ∧
      ¬ (TOKEN_ATTRIBUTE_VALUE_FIRST ≤ t ∧ t < TOKEN_ATTRIBUTE_VALUE_LAST)) ∧
    NUM_TAG_TOKENS + NUM_ATTRIBUTE_TOKENS + NUM_ATTRIBUTE_VALUE_TOKENS = NUM_KEYWORDS ∧
    NUM_KEYWORDS = NUM_TOKENS - TOKEN_KEYWORD_FIRST := by
  have h1 : TOKEN_KEYWORD_FIRST = 25 := by decide
  have h2 : TOKEN_TAG_FIRST = 25 := by decide
  have h3 : TOKEN_TAG_LAST = 36 := by decide
  have h4 : TOKEN_ATTRIBUTE_FIRST = 36 := by decide
  have h5 : TOKEN_ATTRIBUTE_LAST = 95 := by decide
  have h6 : TOKEN_ATTRIBUTE_VALUE_FIRST = 95 := by decide
  have h7 : TOKEN_ATTRIBUTE_VALUE_LAST = 138 := by decide
  have h8 : TOKEN_KEYWORD_LAST = 138 := by decide
  have h9 : NUM_TOKENS = 138 := by decide
  have h10 : NUM_KEYWORDS = 113 := by decide
  have h11 : NUM_TAG_TOKENS = 11 := by decide
  have h12 : NUM_ATTRIBUTE_TOKENS = 59 := by decide
  have h13 : NUM_ATTRIBUTE_VALUE_TOKENS = 43 := by decide
  rw [h1, h2, h3, h4, h5, h6, h7, h8, h9, h10, h11, h12, h13]
  refine ⟨fun t a b => ?_, fun t a => ?_, by norm_num, by norm_num⟩
  · omega
  · omega

/-- C2: `ADEF_UNDEFINED` is 0, `ADEF_DEFINED` is 1, and in every attribute mode
enumeration the smallest enumerator is `ADEF_DEFINED` while no enumerator
(markers and edge-flag combinations included) is `ADEF_UNDEFINED`. -/
theorem mode_enums_start_at_defined :
    ADEF_UNDEFINED = 0 ∧ ADEF_DEFINED = 1 ∧
    ∀ e ∈ attribute_mode_enums,
      e.min? = some ADEF_DEFINED ∧ ADEF_UNDEFINED ∉ e := by
  decide

/-- C3: whatever the variant held before, `variant_set_integer`,
`variant_set_float` and `variant_set_string` leave the type tag, the given
semantic and the given payload, so the tag names the payload that was written;
an omitted semantic is `VSEM_NONE`; the overload without a length stores
`strlen(s)` as an `unsigned`, which is `strlen(s)` itself whenever that is below
2^32. -/
theorem variant_set_writes_all_fields (v : Variant) (x : Int) (r : ℚ) (s : String)
    (n : Nat) (vs : ValueSemantic) :
    variant_set_integer v x vs =
        { type := VTYPE_INTEGER, semantic := vs, payload := .integer x } ∧
    variant_set_float v r vs =
        { type := VTYPE_FLOAT, semantic := vs, payload := .real r } ∧
    variant_set_string v s n vs =
        { type := VTYPE_STRING, semantic := vs, payload := .string s n } ∧
    (variant_set_integer v x vs).tag_matches_payload = true ∧
    (variant_set_float v r vs).tag_matches_payload = true ∧
    (variant_set_string v s n vs).tag_matches_payload = true ∧
    (variant_set_string_cstr v s vs).tag_matches_payload = true ∧
    (variant_set_integer v x).semantic = VSEM_NONE ∧
    (variant_set_float v r).semantic = VSEM_NONE ∧
    (variant_set_string v s n).semantic = VSEM_NONE ∧
    (variant_set_string_cstr v s).semantic = VSEM_NONE ∧
    variant_set_string_cstr v s vs =
        { type := VTYPE_STRING, semantic := vs,
          payload := .string s (strlen s % 4294967296) } ∧
    (strlen s < 4294967296 →
      variant_set_string_cstr v s vs =
        { type := VTYPE_STRING, semantic := vs, payload := .string s (strlen s) }) := by
  refine ⟨rfl, rfl, rfl, rfl, rfl, rfl, rfl, rfl, rfl, rfl, rfl, rfl, ?_⟩
  intro h
  unfold variant_set_string_cstr
  rw [Nat.mod_eq_of_lt h]
  rfl

theorem variant_set_writes_all_fields_witness :
    strlen "Segoe UI" < 4294967296 ∧
    variant_set_string_cstr Variant.unset "Segoe UI" VSEM_URL =
      { type := VTYPE_STRING, semantic := VSEM_URL, payload := .string "Segoe UI" 8 } :=
  ⟨by decide,
    (variant_set_writes_all_fields Variant.unset 0 0 "Segoe UI" 0
      VSEM_URL).2.2.2.2.2.2.2.2.2.2.2.2 (by decide)⟩

/-- C4: `add_default_rules` makes exactly nine `add_rule` calls, with the
selectors document, p, a, a:highlighted, a:active, h1, h2, h3, code in this
order, each with flags `RFLAG_ENABLED | RFLAG_GLOBAL` and priority
`RULE_PRIORITY_LOWEST`; as a set the selectors are the documented built-in
defaults. -/
theorem default_rules_registered (ext : External)
    (attributes : Nat → AttributeAssignment) :
    (default_rule_calls ext attributes).length = 9 ∧
    (default_rule_calls ext attributes).map AddRuleArgs.selector =
      ["document", "p", "a", "a:highlighted", "a:active", "h1", "h2", "h3", "code"] ∧
    (∀ args ∈ default_rule_calls ext attributes,
      args.flags = ext.RFLAG_ENABLED ||| ext.RFLAG_GLOBAL ∧
      args.priority = ext.RULE_PRIORITY_LOWEST) ∧
    (∀ sel : String, sel ∈ (default_rule_calls ext attributes).map AddRuleArgs.selector ↔
      sel ∈ ["document", "p", "a", "a:active", "a:highlighted", "h1", "h2", "h3", "code"]) := by
  refine ⟨rfl, rfl, ?_, ?_⟩
  · intro args h
    have hf : (default_rule_calls ext attributes).map AddRuleArgs.flags =
        List.replicate 9 (ext.RFLAG_ENABLED ||| ext.RFLAG_GLOBAL) := rfl
    have hp : (default_rule_calls ext attributes).map AddRuleArgs.priority =
        List.replicate 9 ext.RULE_PRIORITY_LOWEST := rfl
    have h1 := List.mem_map_of_mem AddRuleArgs.flags h
    have h2 := List.mem_map_of_mem AddRuleArgs.priority h
    rw [hf] at h1
    rw [hp] at h2
    exact ⟨List.eq_of_mem_replicate h1, List.eq_of_mem_replicate h2⟩
  · intro sel
    have h : (default_rule_calls ext attributes).map AddRuleArgs.selector =
      ["document", "p", "a", "a:highlighted", "a:active", "h1", "h2", "h3", "code"] := rfl
    rw [h]
    simp only [List.mem_cons, List.mem_singleton, List.not_mem_nil, or_false]
    constructor <;> intro h <;> rcases h with h | h | h | h | h | h | h | h | h <;> simp [h]

theorem default_rule_calls_names (ext : External)
    (attributes : Nat → AttributeAssignment) :
    (default_rule_calls ext attributes).map
        (fun args => args.assignments.map AttributeAssignment.name) =
      default_rule_names := rfl

theorem default_rule_names_in_range :
    ∀ l ∈ default_rule_names, ∀ n ∈ l,
      TOKEN_ATTRIBUTE_FIRST ≤ n ∧ n < TOKEN_ATTRIBUTE_LAST := by
  decide

theorem AddRuleArgs.mem_assignments (args : AddRuleArgs) (i : Nat) (h : i < args.count) :
    args.attributes i ∈ args.assignments :=
  List.mem_map_of_mem args.attributes (List.mem_range.mpr h)

/-- C5: every assignment that `add_default_rules` hands to `add_rule`, at any
index below the count of its rule, is named by an attribute token:
`TOKEN_ATTRIBUTE_FIRST <= name < TOKEN_ATTRIBUTE_LAST`. -/
theorem default_rule_assignment_names_are_attributes (ext : External)
    (attributes : Nat → AttributeAssignment) :
    ∀ args ∈ default_rule_calls ext attributes, ∀ i : Nat, i < args.count →
      TOKEN_ATTRIBUTE_FIRST ≤ (args.attributes i).name ∧
      (args.attributes i).name < TOKEN_ATTRIBUTE_LAST := by
  intro args hargs i hi
  have h1 : args.assignments.map AttributeAssignment.name ∈ default_rule_names := by
    rw [← default_rule_calls_names ext attributes]
    exact List.mem_map_of_mem
      (fun args => args.assignments.map AttributeAssignment.name) hargs
  exact default_rule_names_in_range _ h1 _
    (List.mem_map_of_mem AttributeAssignment.name (args.mem_assignments i hi))

theorem default_rule_assignment_names_are_attributes_witness :
    sample_h1_rule ∈ default_rule_calls sample_external sample_attributes ∧
    1 < sample_h1_rule.count ∧
    TOKEN_ATTRIBUTE_FIRST ≤ (sample_h1_rule.attributes 1).name ∧
    (sample_h1_rule.attributes 1).name < TOKEN_ATTRIBUTE_LAST :=
  have hlen : 5 < (default_rule_calls sample_external sample_attributes).length := by
    decide
  have hmem : sample_h1_rule ∈ default_rule_calls sample_external sample_attributes := by
    unfold sample_h1_rule
    rw [List.getD_eq_getElem _ _ hlen]
    exact List.getElem_mem hlen
  ⟨hmem, by decide,
    default_rule_assignment_names_are_attributes sample_external sample_attributes
      sample_h1_rule hmem 1 (by decide)⟩

theorem default_rule_calls_operators (ext : External)
    (attributes : Nat → AttributeAssignment) :
    (default_rule_calls ext attributes).map
        (fun args => (args.selector,
          args.assignments.map (fun a => (a.name, a.op)))) =
      default_rule_operators ext := rfl

theorem default_rule_operators_default (ext : External) :
    ∀ p ∈ default_rule_operators ext, ∀ q ∈ p.2,
      q.2 = ext.make_assignment_op ∨
        (p.1 ∈ ["h1", "h2", "h3"] ∧ q.1 = TOKEN_FONT_SIZE) := by
  simp [default_rule_operators]
  refine ⟨?_, ?_, ?_, ?_, ?_⟩ <;> intro a b h <;> tauto

/-- C6: the built-in h1 rule has exactly one font-size assignment, with
operator `AOP_MULTIPLY` and the value 2.5 of semantic `VSEM_NONE`; folded onto
a base of 16 it gives 40.  The h2 and h3 rules do the same with 2.0 and 1.5,
giving 32 and 24, and every other assignment of a built-in rule has the
default operator of `make_assignment`. -/
theorem heading_rules_multiply_font_size (ext : External)
    (attributes : Nat → AttributeAssignment) :
    ((default_rule_calls ext attributes).filter (fun args => args.selector == "h1")).map
        AddRuleArgs.font_size_assignments = [[font_size_multiply (5 / 2)]] ∧
    fold_assignment (some 16) (font_size_multiply (5 / 2)) = some 40 ∧
    ((default_rule_calls ext attributes).filter (fun args => args.selector == "h2")).map
        AddRuleArgs.font_size_assignments = [[font_size_multiply 2]] ∧
    fold_assignment (some 16) (font_size_multiply 2) = some 32 ∧
    ((default_rule_calls ext attributes).filter (fun args => args.selector == "h3")).map
        AddRuleArgs.font_size_assignments = [[font_size_multiply (3 / 2)]] ∧
    fold_assignment (some 16) (font_size_multiply (3 / 2)) = some 24 ∧
    (∀ args ∈ default_rule_calls ext attributes, ∀ i : Nat, i < args.count →
      (args.attributes i).op = ext.make_assignment_op ∨
        (args.selector ∈ ["h1", "h2", "h3"] ∧
          (args.attributes i).name = TOKEN_FONT_SIZE)) := by
  refine ⟨rfl, ?_, rfl, ?_, rfl, ?_, ?_⟩
  · simp only [fold_assignment, font_size_multiply, Variant.numeric]
    norm_num
  · simp only [fold_assignment, font_size_multiply, Variant.numeric]
    norm_num
  · simp only [fold_assignment, font_size_multiply, Variant.numeric]
    norm_num
  · intro args hargs i hi
    have h1 : (args.selector, args.assignments.map (fun a => (a.name, a.op))) ∈
        default_rule_operators ext := by
      rw [← default_rule_calls_operators ext attributes]
      exact List.mem_map_of_mem
        (fun args => (args.selector, args.assignments.map (fun a => (a.name, a.op)))) hargs
    exact default_rule_operators_default ext _ h1 _
      (List.mem_map_of_mem (fun a => (a.name, a.op)) (args.mem_assignments i hi))

/-! ## Font keys -/

theorem font_key_seed_eq_add (a : LogicalFont) (hs : a.font_size < 65536)
    (hf : a.flags < 65536) :
    font_key_seed a = a.font_size + 65536 * a.flags := by
  have h : (2 : Nat) ^ 16 * a.flags + a.font_size = 2 ^ 16 * a.flags ||| a.font_size :=
    Nat.mul_add_lt_is_or (by simpa using hs) a.flags
  unfold font_key_seed
  rw [Nat.lor_comm, Nat.shiftLeft_eq, Nat.mul_comm, ← h]
  omega

/-- C9, at the failing input: two different logical fonts, one of size 65536
without flags and one of size 0 with flag bit 0, have the same seed
`font_size | (flags << 16)` and so the same key. -/
theorem make_font_key_collision :
    ({ face := "Segoe UI", font_size := 65536, flags := 0 } : LogicalFont) ≠
        { face := "Segoe UI", font_size := 0, flags := 1 } ∧
    make_font_key sample_external { face := "Segoe UI", font_size := 65536, flags := 0 } =
      make_font_key sample_external { face := "Segoe UI", font_size := 0, flags := 1 } := by
  decide

/-- The two fonts collide whatever the hash is: they hand `murmur3_32` the
same face, length and seed. -/
theorem colliding_fonts_share_every_key (ext : External) :
    colliding_font_a ≠ colliding_font_b ∧
    make_font_key ext colliding_font_a = make_font_key ext colliding_font_b :=
  ⟨by decide, rfl⟩

/-- Once the first of the colliding fonts is cached, `get_font_id` for the
second one returns the first one's ID, and the font behind that ID is the
first one. -/
theorem get_font_id_serves_colliding_font :
    (initialize_font_cache sample_external sample_system).bind
        (fun s => get_font_descriptor sample_external
          (get_font_id sample_external
            (get_font_id sample_external s colliding_font_a).system colliding_font_b).system
          (get_font_id sample_external
            (get_font_id sample_external s colliding_font_a).system colliding_font_b).id) =
      some colliding_font_a := by
  decide

/-! ## add_font_assignments -/

/-- The five slots `add_font_assignments` writes, the slots it leaves alone
and the count it returns; the bold and underline values follow their style
bits. -/
theorem add_font_assignments_layout (ext : External)
    (attributes : Nat → AttributeAssignment) (count : Nat) (face : String)
    (size flags : Nat) :
    (add_font_assignments ext attributes count face size flags).2 = count + 5 ∧
    (∀ j, j < count →
      (add_font_assignments ext attributes count face size flags).1 j = attributes j) ∧
    ((add_font_assignments ext attributes count face size flags).1 count).name = TOKEN_FONT ∧
    ((add_font_assignments ext attributes count face size flags).1 (count + 1)).name =
      TOKEN_FONT_SIZE ∧
    (add_font_assignments ext attributes count face size flags).1 (count + 2) =
      { name := TOKEN_BOLD, op := ext.make_assignment_op,
        value := ⟨VTYPE_INTEGER, VSEM_BOOLEAN,
          .integer (if flags &&& ext.STYLE_BOLD ≠ 0 then 1 else 0)⟩ } ∧
    ((add_font_assignments ext attributes count face size flags).1 (count + 3)).name =
      TOKEN_ITALIC ∧
    (add_font_assignments ext attributes count face size flags).1 (count + 4) =
      { name := TOKEN_UNDERLINE, op := ext.make_assignment_op,
        value := ⟨VTYPE_INTEGER, VSEM_BOOLEAN,
          .integer (if flags &&& ext.STYLE_UNDERLINE ≠ 0 then 1 else 0)⟩ } := by
  refine ⟨rfl, ?_, ?_, ?_, ?_, ?_, ?_⟩
  · intro j hj
    simp only [add_font_assignments, array_set]
    rw [if_neg (by omega), if_neg (by omega), if_neg (by omega), if_neg (by omega),
      if_neg (by omega)]
  all_goals
    simp only [add_font_assignments, array_set]
    split_ifs <;> first
      | omega
      | simp_all [make_assignment_cstr, make_assignment_unsigned, make_assignment_int,
          variant_set_integer, bool_to_int]

/-- The italic slot tests `flags` against the token number `TOKEN_ITALIC`
(70, bits 1, 2 and 6), not against `STYLE_ITALIC`. -/
theorem add_font_assignments_italic_tests_token (ext : External)
    (attributes : Nat → AttributeAssignment) (count : Nat) (face : String)
    (size flags : Nat) :
    (add_font_assignments ext attributes count face size flags).1 (count + 3) =
      { name := TOKEN_ITALIC, op := ext.make_assignment_op,
        value := ⟨VTYPE_INTEGER, VSEM_BOOLEAN,
          .integer (if flags &&& 70 ≠ 0 then 1 else 0)⟩ } := by
  have h : to_uint32 TOKEN_ITALIC = 70 := by decide
  simp only [add_font_assignments, array_set]
  split_ifs <;> first
    | omega
    | simp_all [make_assignment_int, variant_set_integer, bool_to_int]

/-- C10, at the failing input: with flags = 4, where the italic bit
`STYLE_ITALIC = 2` is clear, the italic assignment is nevertheless the boolean
1, because 4 is among the bits of `TOKEN_ITALIC`. -/
theorem add_font_assignments_italic_without_style_bit :
    4 &&& sample_external.STYLE_ITALIC = 0 ∧
    (add_font_assignments sample_external sample_attributes 0 "Consolas" 16 4).1 3 =
      { name := TOKEN_ITALIC, op := AOP_SET,
        value := ⟨VTYPE_INTEGER, VSEM_BOOLEAN,
          .integer 1⟩ } := by
  decide

/-- Whatever single bit `STYLE_ITALIC` is, some value of `flags` makes the
test of `add_font_assignments` disagree with the style bit. -/
theorem italic_test_differs_for_every_single_bit (k : Nat) :
    ∃ flags : Nat, flags < 65536 ∧
      ((flags &&& to_uint32 TOKEN_ITALIC) != 0) ≠ ((flags &&& 2 ^ k) != 0) := by
  have h : to_uint32 TOKEN_ITALIC = 70 := by decide
  rw [h]
  by_cases hk : k = 6
  · subst hk
    exact ⟨2, by decide, by decide⟩
  · refine ⟨64, by decide, ?_⟩
    have h2 : 64 &&& 2 ^ k = 0 := by
      rw [Nat.and_two_pow]
      have h3 : Nat.testBit 64 k = false := by
        have h4 : Nat.testBit (2 ^ 6) k = decide (6 = k) := Nat.testBit_two_pow
        have h5 : decide (6 = k) = false := decide_eq_false (fun e => hk e.symm)
        rw [h5] at h4
        exact h4
      simp [h3]
    rw [h2]
    decide

/-! ## The font cache -/

theorem find_range_eq_none (p : Nat → Bool) (n : Nat) :
    (List.range n).find? p = none ↔ ∀ j, j < n → p j = false := by
  rw [List.find?_eq_none]
  constructor
  · intro h j hj
    simpa using h j (List.mem_range.mpr hj)
  · intro h j hj
    simpa using h j (List.mem_range.mp hj)

theorem find_range_eq_some (p : Nat → Bool) (n i : Nat) :
    (List.range n).find? p = some i ↔
      i < n ∧ p i = true ∧ ∀ j, j < i → p j = false := by
  induction n generalizing i with
  | zero => simp
  | succ n ih =>
    rw [List.range_succ, List.find?_append]
    cases hf : (List.range n).find? p with
    | some k =>
      obtain ⟨hk1, hk2, hk3⟩ := (ih k).mp hf
      simp only [Option.or]
      constructor
      · intro h
        cases h
        exact ⟨by omega, hk2, hk3⟩
      · rintro ⟨_, h2, h3⟩
        rcases Nat.lt_trichotomy k i with h | h | h
        · rw [h3 k h] at hk2
          cases hk2
        · rw [h]
        · rw [hk3 i h] at h2
          cases h2
    | none =>
      have hn := (find_range_eq_none p n).mp hf
      simp only [Option.or]
      by_cases hp : p n = true
      · rw [List.find?_cons_of_pos _ hp]
        constructor
        · intro h
          cases h
          exact ⟨by omega, hp, hn⟩
        · rintro ⟨h1, h2, _⟩
          by_cases hi : i < n
          · rw [hn i hi] at h2
            cases h2
          · have : i = n := by omega
            rw [this]
      · rw [List.find?_cons_of_neg _ hp, List.find?_nil]
        constructor
        · intro h
          cases h
        · rintro ⟨h1, h2, _⟩
          by_cases hi : i < n
          · rw [hn i hi] at h2
            cases h2
          · have : i = n := by omega
            rw [this] at h2
            exact absurd h2 hp

theorem find_cached_key_eq_some (system : System) (key i : Nat) :
    find_cached_key system key = some i ↔ first_cached system key i := by
  unfold find_cached_key first_cached
  rw [find_range_eq_some]
  simp

theorem find_cached_key_eq_none (system : System) (key : Nat) :
    find_cached_key system key = none ↔ not_cached system key := by
  unfold find_cached_key not_cached
  rw [find_range_eq_none]
  simp

theorem to_int16_of_lt (n : Nat) (h : n < 32768) : to_int16 n = n := by
  unfold to_int16
  omega

theorem to_uint32_of_lt (n : Nat) (h : n < 32768) : to_uint32 n = n := by
  unfold to_uint32
  omega

theorem get_font_id_of_cached (ext : External) (s : System) (d : LogicalFont) (i : Nat)
    (h : first_cached s (make_font_key ext d) i) :
    get_font_id ext s d = { id := to_int16 i, system := s, platform_calls := [] } := by
  have h1 := (find_cached_key_eq_some s _ i).mpr h
  simp only [get_font_id, h1]

theorem get_font_id_of_full (ext : External) (s : System) (d : LogicalFont)
    (h : not_cached s (make_font_key ext d))
    (hfull : s.font_cache_entries = ext.MAX_CACHED_FONTS) :
    get_font_id ext s d = { id := 0, system := s, platform_calls := [] } := by
  have h1 := (find_cached_key_eq_none s _).mpr h
  simp only [get_font_id, h1, hfull, if_true]

theorem get_font_id_of_unmatched (ext : External) (s : System) (d : LogicalFont)
    (h : not_cached s (make_font_key ext d))
    (hroom : s.font_cache_entries ≠ ext.MAX_CACHED_FONTS)
    (hnull : ext.platform_match_font s.back_end d = 0) :
    get_font_id ext s d =
      { id := s.default_font_id, system := s,
        platform_calls := [.match_font s.back_end d] } := by
  have h1 := (find_cached_key_eq_none s _).mpr h
  simp only [get_font_id, h1, hroom, hnull, if_true, if_false]

theorem get_font_id_of_created (ext : External) (s : System) (d : LogicalFont)
    (h : not_cached s (make_font_key ext d))
    (hroom : s.font_cache_entries ≠ ext.MAX_CACHED_FONTS)
    (hmatch : ext.platform_match_font s.back_end d ≠ 0) :
    (get_font_id ext s d).id = to_int16 s.font_cache_entries ∧
    (get_font_id ext s d).system.font_cache_entries = s.font_cache_entries + 1 ∧
    (∀ j, j ≠ s.font_cache_entries →
      (get_font_id ext s d).system.font_cache j = s.font_cache j) ∧
    ((get_font_id ext s d).system.font_cache s.font_cache_entries).key =
      make_font_key ext d ∧
    ((get_font_id ext s d).system.font_cache s.font_cache_entries).handle =
      ext.platform_match_font s.back_end d ∧
    ((get_font_id ext s d).system.font_cache s.font_cache_entries).descriptor = d ∧
    (get_font_id ext s d).system.back_end = s.back_end ∧
    (get_font_id ext s d).system.default_font_id = s.default_font_id ∧
    (get_font_id ext s d).system.default_font_descriptor = s.default_font_descriptor ∧
    (get_font_id ext s d).platform_calls =
      [.match_font s.back_end d,
        .font_metrics s.back_end (ext.platform_match_font s.back_end d)] := by
  have h1 := (find_cached_key_eq_none s _).mpr h
  simp only [get_font_id, h1, hroom, hmatch, if_false, array_set, if_true, true_and]
  refine ⟨fun j hj => ?_, trivial⟩
  rw [if_neg hj]

theorem first_cached_after_created (ext : External) (s : System) (d : LogicalFont)
    (h : not_cached s (make_font_key ext d))
    (hroom : s.font_cache_entries ≠ ext.MAX_CACHED_FONTS)
    (hmatch : ext.platform_match_font s.back_end d ≠ 0) :
    first_cached (get_font_id ext s d).system (make_font_key ext d)
      s.font_cache_entries := by
  obtain ⟨_, h2, h3, h4, _⟩ := get_font_id_of_created ext s d h hroom hmatch
  refine ⟨by omega, h4, fun j hj => ?_⟩
  rw [h3 j (by omega)]
  exact h j hj

theorem cached_or_not (s : System) (key : Nat) :
    (∃ i, first_cached s key i) ∨ not_cached s key := by
  cases hf : find_cached_key s key with
  | some i => exact Or.inl ⟨i, (find_cached_key_eq_some s key i).mp hf⟩
  | none => exact Or.inr ((find_cached_key_eq_none s key).mp hf)

theorem not_first_cached_of_not_cached (s : System) (key i : Nat)
    (h : not_cached s key) : ¬ first_cached s key i :=
  fun hc => h i hc.1 hc.2.1

/-- C8: with at most `MAX_CACHED_FONTS <= 32768` entries in use, a second
`get_font_id` for the same descriptor returns the same ID and leaves the system
as the first call left it; a call that finds the key cached returns the index
of the first entry with the key, makes no platform call and changes nothing; a
call that changes the number of entries found the key uncached, appended one
entry with the key, the platform's handle and the descriptor at the old
`font_cache_entries`, left all other slots alone and returned that index; and
such an entry is created whenever the key is uncached, the cache has room and
the platform matches the font. -/
theorem get_font_id_reuses_or_appends (ext : External) (s : System) (d : LogicalFont)
    (hmax : ext.MAX_CACHED_FONTS ≤ 32768)
    (hle : s.font_cache_entries ≤ ext.MAX_CACHED_FONTS) :
    (get_font_id ext (get_font_id ext s d).system d).id = (get_font_id ext s d).id ∧
    (get_font_id ext (get_font_id ext s d).system d).system =
      (get_font_id ext s d).system ∧
    (∀ i, first_cached s (make_font_key ext d) i →
      (get_font_id ext s d).id = i ∧ (get_font_id ext s d).system = s ∧
      (get_font_id ext s d).platform_calls = []) ∧
    ((get_font_id ext s d).system.font_cache_entries ≠ s.font_cache_entries →
      not_cached s (make_font_key ext d) ∧
      (get_font_id ext s d).id = s.font_cache_entries ∧
      (get_font_id ext s d).system.font_cache_entries = s.font_cache_entries + 1 ∧
      (∀ j, j ≠ s.font_cache_entries →
        (get_font_id ext s d).system.font_cache j = s.font_cache j) ∧
      ((get_font_id ext s d).system.font_cache s.font_cache_entries).key =
        make_font_key ext d ∧
      ((get_font_id ext s d).system.font_cache s.font_cache_entries).handle =
        ext.platform_match_font s.back_end d ∧
      ((get_font_id ext s d).system.font_cache s.font_cache_entries).descriptor = d) ∧
    (not_cached s (make_font_key ext d) →
      s.font_cache_entries ≠ ext.MAX_CACHED_FONTS →
      ext.platform_match_font s.back_end d ≠ 0 →
      (get_font_id ext s d).system.font_cache_entries = s.font_cache_entries + 1) := by
  have hcached : ∀ i, first_cached s (make_font_key ext d) i →
      (get_font_id ext s d).id = i ∧ (get_font_id ext s d).system = s ∧
      (get_font_id ext s d).platform_calls = [] := by
    intro i hi
    rw [get_font_id_of_cached ext s d i hi]
    exact ⟨to_int16_of_lt i (by have := hi.1; omega), rfl, rfl⟩
  rcases cached_or_not s (make_font_key ext d) with ⟨i, hi⟩ | hn
  · have e := get_font_id_of_cached ext s d i hi
    refine ⟨?_, ?_, hcached, ?_, ?_⟩
    · rw [e]
      simp only
      rw [e]
    · rw [e]
      simp only
      rw [e]
    · intro h
      rw [e] at h
      exact absurd rfl h
    · intro h
      exact absurd hi (not_first_cached_of_not_cached s _ i h)
  · by_cases hfull : s.font_cache_entries = ext.MAX_CACHED_FONTS
    · have e := get_font_id_of_full ext s d hn hfull
      refine ⟨?_, ?_, hcached, ?_, ?_⟩
      · rw [e]
        simp only
        rw [e]
      · rw [e]
        simp only
        rw [e]
      · intro h
        rw [e] at h
        exact absurd rfl h
      · intro _ h
        exact absurd hfull h
    · by_cases hnull : ext.platform_match_font s.back_end d = 0
      · have e := get_font_id_of_unmatched ext s d hn hfull hnull
        refine ⟨?_, ?_, hcached, ?_, ?_⟩
        · rw [e]
          simp only
          rw [e]
        · rw [e]
          simp only
          rw [e]
        · intro h
          rw [e] at h
          exact absurd rfl h
        · intro _ _ h
          exact absurd hnull h
      · obtain ⟨c1, c2, c3, c4, c5, c6, _⟩ := get_font_id_of_created ext s d hn hfull hnull
        have hfirst := first_cached_after_created ext s d hn hfull hnull
        have e2 := get_font_id_of_cached ext (get_font_id ext s d).system d _ hfirst
        refine ⟨?_, ?_, hcached, ?_, ?_⟩
        · rw [e2, c1]
        · rw [e2]
        · intro _
          exact ⟨hn, by rw [c1]; exact to_int16_of_lt _ (by omega), c2, c3, c4, c5, c6⟩
        · intro _ _ _
          exact c2

theorem get_font_id_reuses_or_appends_witness :
    sample_external.MAX_CACHED_FONTS ≤ 32768 ∧
    sample_system.font_cache_entries ≤ sample_external.MAX_CACHED_FONTS ∧
    (get_font_id sample_external
        (get_font_id sample_external sample_system sample_font).system sample_font).id =
      (get_font_id sample_external sample_system sample_font).id ∧
    (get_font_id sample_external
        (get_font_id sample_external sample_system sample_font).system sample_font).system =
      (get_font_id sample_external sample_system sample_font).system :=
  ⟨by decide, by decide,
    (get_font_id_reuses_or_appends sample_external sample_system sample_font
      (by decide) (by decide)).1,
    (get_font_id_reuses_or_appends sample_external sample_system sample_font
      (by decide) (by decide)).2.1⟩

/-- C7, the claim as stated fails: in a freshly initialised font cache, which
holds the default font at ID 0, asking for a face the platform cannot match
returns the default font's ID, whose descriptor is the default font and not the
one asked for. -/
theorem get_font_descriptor_of_unmatched_font :
    (initialize_font_cache sample_external sample_system).bind
        (fun s => get_font_descriptor sample_external
          (get_font_id sample_external s unknown_font).system
          (get_font_id sample_external s unknown_font).id) =
      some { face := "Segoe UI", font_size := 16, flags := 0 } ∧
    (initialize_font_cache sample_external sample_system).bind
        (fun s => get_font_descriptor sample_external
          (get_font_id sample_external s unknown_font).system
          (get_font_id sample_external s unknown_font).id) ≠
      some unknown_font := by
  decide

/-- C7, amended: with at most `MAX_CACHED_FONTS <= 32768` entries in use and
`INVALID_FONT_ID` negative, if `get_font_id` creates the entry (key not cached,
room in the cache, the platform matches the font) then `get_font_descriptor` of
the returned ID is the descriptor that was asked for; and if the key is already
cached it is the descriptor stored in the first entry with that key. -/
theorem get_font_descriptor_of_get_font_id (ext : External) (s : System)
    (d : LogicalFont) (hmax : ext.MAX_CACHED_FONTS ≤ 32768)
    (hle : s.font_cache_entries ≤ ext.MAX_CACHED_FONTS)
    (hinv : ext.INVALID_FONT_ID < 0) :
    (not_cached s (make_font_key ext d) →
      s.font_cache_entries ≠ ext.MAX_CACHED_FONTS →
      ext.platform_match_font s.back_end d ≠ 0 →
      get_font_descriptor ext (get_font_id ext s d).system (get_font_id ext s d).id =
        some d) ∧
    (∀ i, first_cached s (make_font_key ext d) i →
      get_font_descriptor ext (get_font_id ext s d).system (get_font_id ext s d).id =
        some (s.font_cache i).descriptor) := by
  constructor
  · intro hn hroom hmatch
    obtain ⟨c1, c2, _, _, _, c6, _⟩ := get_font_id_of_created ext s d hn hroom hmatch
    have hlt : s.font_cache_entries < 32768 := by omega
    rw [c1, to_int16_of_lt _ hlt]
    unfold get_font_descriptor
    rw [if_pos (by omega), to_uint32_of_lt _ hlt, if_pos (by omega), c6]
  · intro i hi
    have hlt : i < 32768 := by have := hi.1; omega
    rw [get_font_id_of_cached ext s d i hi]
    simp only
    rw [to_int16_of_lt _ hlt]
    unfold get_font_descriptor
    rw [if_pos (by omega), to_uint32_of_lt _ hlt, if_pos hi.1]

theorem get_font_descriptor_of_get_font_id_witness :
    sample_external.MAX_CACHED_FONTS ≤ 32768 ∧
    sample_system.font_cache_entries ≤ sample_external.MAX_CACHED_FONTS ∧
    sample_external.INVALID_FONT_ID < 0 ∧
    not_cached sample_system (make_font_key sample_external sample_font) ∧
    sample_system.font_cache_entries ≠ sample_external.MAX_CACHED_FONTS ∧
    sample_external.platform_match_font sample_system.back_end sample_font ≠ 0 ∧
    get_font_descriptor sample_external
        (get_font_id sample_external sample_system sample_font).system
        (get_font_id sample_external sample_system sample_font).id =
      some sample_font :=
  ⟨by decide, by decide, by decide, fun j hj => absurd hj (Nat.not_lt_zero j),
    by decide, by decide,
    (get_font_descriptor_of_get_font_id sample_external sample_system sample_font
      (by decide) (by decide) (by decide)).1
      (fun j hj => absurd hj (Nat.not_lt_zero j)) (by decide) (by decide)⟩

end stkr
